import Mathlib

/-!
A shallow embedding of `src/gameobject.py` (pygannuum).

Python floats are modelled as exact rationals (ℚ), Python ints as ℤ/ℕ.
The pygame collaborators (`transform.scale`, `transform.rotate`,
`Surface.get_rect`, `Rect.colliderect`, `Surface.blit`) are out of the
core's scope; scaling/rotation output sizes are abstracted by a function
parameter `rotS : ℤ → ℤ → ℚ → ℤ × ℤ` giving the pixel size of the scaled
image after rotation, rectangles and the intersection test are modelled
concretely with pygame's integer-rect semantics, and drawing is modelled
as the list of blit calls issued (the only surface mutations).
-/

/-- Python's `%` on numbers with a positive right operand:
`a % m = a - m * floor(a / m)` (result has the sign of `m`). -/
def pymod (a m : ℚ) : ℚ := a - m * ⌊a / m⌋

/-- Python's `round` (banker's rounding: ties go to the even integer). -/
def pyround (q : ℚ) : ℤ :=
  let n := ⌊q⌋
  let f := q - n
  if f < 1/2 then n
  else if 1/2 < f then n + 1
  else if n % 2 = 0 then n else n + 1

/-- C-style float→int conversion (truncation toward zero), as applied by
pygame when a float coordinate is stored into an integer `Rect`. -/
def pytrunc (q : ℚ) : ℤ := if 0 ≤ q then ⌊q⌋ else ⌈q⌉

/-- `pygame.math.Vector2`: a 2-component vector of floats. -/
structure Vec2 where
  x : ℚ
  y : ℚ
deriving DecidableEq

instance : Inhabited Vec2 := ⟨⟨0, 0⟩⟩

def Vec2.add (a b : Vec2) : Vec2 := ⟨a.x + b.x, a.y + b.y⟩

def Vec2.smul (a : Vec2) (k : ℚ) : Vec2 := ⟨a.x * k, a.y * k⟩

/-- `pygame.Rect`: integer position and size. -/
structure PRect where
  x : ℤ
  y : ℤ
  w : ℤ
  h : ℤ
deriving DecidableEq

instance : Inhabited PRect := ⟨⟨0, 0, 0, 0⟩⟩

/-- `pygame.Rect.colliderect`: overlap test
`A.x < B.x + B.w and A.y < B.y + B.h and A.x + A.w > B.x and A.y + A.h > B.y`. -/
def colliderect (a b : PRect) : Bool :=
  decide (a.x < b.x + b.w ∧ a.y < b.y + b.h ∧ b.x < a.x + a.w ∧ b.y < a.y + a.h)

/-- `Surface.get_rect(center=(cx, cy))`: a rect of the surface's size with
its center set to `(cx, cy)` (pygame: `x = cx - w // 2`, sizes nonneg). -/
def rectWithCenter (tw th cx cy : ℤ) : PRect :=
  { x := cx - Int.fdiv tw 2, y := cy - Int.fdiv th 2, w := tw, h := th }

instance {ε α : Type} [DecidableEq ε] [DecidableEq α] : DecidableEq (Except ε α) :=
  fun x y =>
    match x, y with
    | .ok a, .ok b =>
      if h : a = b then .isTrue (congrArg Except.ok h)
      else .isFalse (fun hc => h (Except.ok.inj hc))
    | .error e, .error f =>
      if h : e = f then .isTrue (congrArg Except.error h)
      else .isFalse (fun hc => h (Except.error.inj hc))
    | .ok _, .error _ => .isFalse (fun hc => Except.noConfusion hc)
    | .error _, .ok _ => .isFalse (fun hc => Except.noConfusion hc)

/-- Python exceptions distinguished by the embedding. -/
inductive PyErr where
  | typeError
  | attributeError
  | notImplementedError
  | other (code : ℕ)
deriving DecidableEq

/-- The renderer attached to a GameObject: a `BasicRenderer` (stateless) or
a `StackRenderer` with its `spread` field. -/
inductive Renderer where
  | basic
  | stack (spread : ℤ)
deriving DecidableEq

/-- Module-level `DEFAULT_RENDERER = BasicRenderer()` (line 329). `BasicRenderer`
holds no state, so the shared instance is modelled by its value. -/
def DEFAULT_RENDERER : Renderer := .basic

/-- One `Surface.blit(texture, dest, area=..., special_flags=...)` call issued
while drawing. -/
structure Blit where
  dest : ℤ × ℤ
  area : Option PRect
  special_flags : ℤ
deriving DecidableEq

/-- The attribute state of a `GameObject` (lines 19-99). `image` is an opaque
texture handle (its pixel data never reaches the core); `renderer` is kept as
an `Option` so that the never-`None` guarantee of the setter is a provable
property rather than a typing artifact. The `updater` attribute of a plain
GameObject may be an arbitrary Python callable, so it is modelled as an
explicit parameter of `GameObject.update` rather than a field (see below). -/
structure GOState where
  image : ℕ
  position : Vec2
  scale : Vec2
  rotation : ℚ
  renderer : Option Renderer
  rect : PRect
deriving DecidableEq

instance : Inhabited GOState :=
  ⟨⟨0, ⟨0, 0⟩, ⟨0, 0⟩, 0, none, ⟨0, 0, 0, 0⟩⟩⟩

/-- Rotation setter (lines 76-78): `self._rotation = r % 360`. -/
def GameObject.setRotation (g : GOState) (r : ℚ) : GOState :=
  { g with rotation := pymod r 360 }

/-- Position setter (lines 68-70): converts the argument to a `Vector2`
(identity here, the embedding is already vector-typed). -/
def GameObject.setPosition (g : GOState) (p : Vec2) : GOState :=
  { g with position := p }

/-- Scale setter (lines 72-74). -/
def GameObject.setScale (g : GOState) (s : Vec2) : GOState :=
  { g with scale := s }

/-- Renderer setter (lines 80-83):
`self._renderer = DEFAULT_RENDERER if r is None else r`. -/
def GameObject.setRenderer (g : GOState) (r : Option Renderer) : GOState :=
  { g with renderer := some (r.getD DEFAULT_RENDERER) }

/-- The size of `transform.rotate(transform.scale(image, (round(scale.x),
round(scale.y))), rotation)` (lines 137-139 and 157-159), with the pygame
scale/rotate primitives abstracted by `rotS`. -/
def transformedSize (rotS : ℤ → ℤ → ℚ → ℤ × ℤ) (g : GOState) : ℤ × ℤ :=
  rotS (pyround g.scale.x) (pyround g.scale.y) g.rotation

/-- `texture.get_rect(center=tuple(gameobject.position))` for the transformed
texture (lines 142-143 and 159): its bounding rect centered at the entity's
position (float coordinates truncated by pygame). -/
def transformedRect (rotS : ℤ → ℤ → ℚ → ℤ × ℤ) (g : GOState) : PRect :=
  let s := transformedSize rotS g
  rectWithCenter s.1 s.2 (pytrunc g.position.x) (pytrunc g.position.y)

/-- `BasicRenderer.hitbox` (lines 156-159). -/
def BasicRenderer.hitboxFn (rotS : ℤ → ℤ → ℚ → ℤ × ℤ) (g : GOState) : PRect :=
  transformedRect rotS g

/-- `BasicRenderer.__call__` (lines 125-154): scale and rotate the texture,
cull if its rect does not collide with the surface's rect, else blit with the
texture's center at the rounded position, forwarding `area`/`special_flags`.
The surface is modelled by its pixel size; the result is the list of blit
calls issued. -/
def BasicRenderer.callFn (rotS : ℤ → ℤ → ℚ → ℤ × ℤ) (g : GOState)
    (surface : ℤ × ℤ) (area : Option PRect) (special_flags : ℤ) : List Blit :=
  let s := transformedSize rotS g
  if colliderect ⟨0, 0, surface.1, surface.2⟩ (transformedRect rotS g) then
    [{ dest := (pyround g.position.x - Int.fdiv s.1 2,
                pyround g.position.y - Int.fdiv s.2 2),
       area := area, special_flags := special_flags }]
  else []

/-- `StackRenderer.__call__` (lines 168-178): unconditionally
`raise NotImplementedError`. -/
def StackRenderer.callFn (spread : ℤ) (g : GOState) (surface : ℤ × ℤ)
    (area : Option PRect) (special_flags : ℤ) : Except PyErr (List Blit) :=
  .error .notImplementedError

/-- `StackRenderer.hitbox` (lines 180-181): unconditionally
`raise NotImplementedError`. -/
def StackRenderer.hitboxFn (spread : ℤ) (g : GOState) : Except PyErr PRect :=
  .error .notImplementedError

/-- Dynamic dispatch of `self.renderer(self, surface, area, special_flags)`.
Calling a `None` renderer would raise `TypeError` (not callable). -/
def rendererCallE (rotS : ℤ → ℤ → ℚ → ℤ × ℤ) (r : Option Renderer)
    (g : GOState) (surface : ℤ × ℤ) (area : Option PRect)
    (special_flags : ℤ) : Except PyErr (List Blit) :=
  match r with
  | none => .error .typeError
  | some .basic => .ok (BasicRenderer.callFn rotS g surface area special_flags)
  | some (.stack spread) => StackRenderer.callFn spread g surface area special_flags

/-- Dynamic dispatch of `self.renderer.hitbox(self)`. Attribute access on a
`None` renderer would raise `AttributeError`. -/
def rendererHitboxE (rotS : ℤ → ℤ → ℚ → ℤ × ℤ) (r : Option Renderer)
    (g : GOState) : Except PyErr PRect :=
  match r with
  | none => .error .attributeError
  | some .basic => .ok (BasicRenderer.hitboxFn rotS g)
  | some (.stack spread) => StackRenderer.hitboxFn spread g

/-- The attribute state after the setter assignments of `GameObject.__init__`
(lines 42-47), before the hitbox is computed. -/
def GameObject.mkPre (texture : ℕ) (position scale : Vec2) (rotation : ℚ)
    (renderer : Option Renderer) : GOState :=
  { image := texture, position := position, scale := scale,
    rotation := pymod rotation 360,
    renderer := some (renderer.getD DEFAULT_RENDERER),
    rect := ⟨0, 0, 0, 0⟩ }

/-- `GameObject.__init__` (lines 36-50): set the attributes through their
setters, then `self.rect = self.renderer.hitbox(self)`; an exception from
`hitbox` propagates and no object is produced. -/
def GameObject.mk' (rotS : ℤ → ℤ → ℚ → ℤ × ℤ) (texture : ℕ)
    (position scale : Vec2) (rotation : ℚ) (renderer : Option Renderer) :
    Except PyErr GOState :=
  let g0 := GameObject.mkPre texture position scale rotation renderer
  match rendererHitboxE rotS g0.renderer g0 with
  | .error e => .error e
  | .ok r => .ok { g0 with rect := r }

/-- `GameObject.update` (lines 85-94): `try: self.updater(dt) except
TypeError: pass`. The attached updater (an arbitrary Python callable) is
modelled as an optional function from `dt` and the current state to a result;
an unattached updater is `None`, and calling `None` raises `TypeError`, which
the `except` clause swallows. A parameter-mismatch `TypeError` is raised at
call time, before the updater body can mutate anything. -/
def GameObject.update (uf : Option (ℚ → GOState → Except PyErr GOState))
    (g : GOState) (dt : ℚ) : Except PyErr GOState :=
  match uf with
  | none => .ok g
  | some f =>
    match f dt g with
    | .ok g2 => .ok g2
    | .error .typeError => .ok g
    | .error e => .error e

/-- `GameObject.draw` (lines 96-99): delegates to the renderer, but passes
the literals `area=None, special_flags=0` instead of its own `area` and
`special_flags` arguments — exactly as the source does on line 99. -/
def GameObject.draw (rotS : ℤ → ℤ → ℚ → ℤ × ℤ) (g : GOState)
    (surface : ℤ × ℤ) (area : Option PRect) (special_flags : ℤ) :
    Except PyErr (List Blit) :=
  rendererCallE rotS g.renderer g surface none 0

/-- A `BasicParticleUpdater` instance (lines 199-236): a back-reference to the
particle it is bound to (a heap id, `None` until bound) and its kinematic
state. The velocity/accel setters convert pairs to `Vector2` (identity here). -/
structure PUpdater where
  particle : Option ℕ
  velocity : Vec2
  accel : Vec2
deriving DecidableEq

instance : Inhabited PUpdater := ⟨⟨none, ⟨0, 0⟩, ⟨0, 0⟩⟩⟩

/-- A `Particle` instance (lines 238-299): the inherited `GameObject`
attributes, the id of the attached updater instance (`none` only before the
setter has run; the setter always stores an id), and the lifespan. -/
structure PParticle where
  gob : GOState
  updater : Option ℕ
  lifespan : ℚ
deriving DecidableEq

instance : Inhabited PParticle := ⟨⟨default, none, 0⟩⟩

/-- The mutable heap the particle claims run over: updater instances and
particle instances addressed by id (allocation counters give fresh ids), and
the member lists of the live `ParticleSystem` groups. `sprite.kill()` removes
a particle from every group it belongs to. -/
structure World where
  updaters : ℕ → PUpdater
  nupd : ℕ
  particles : ℕ → PParticle
  npart : ℕ
  systems : List (List ℕ)

/-- The heap at module load time: `DEFAULT_PARTICLE_MOTION =
BasicParticleUpdater()` (line 328) is the sole updater instance, at id 0,
unbound and with zero velocity and acceleration; no particles, no systems. -/
def World.start : World :=
  { updaters := fun _ => ⟨none, ⟨0, 0⟩, ⟨0, 0⟩⟩,
    nupd := 1,
    particles := fun _ => default,
    npart := 0,
    systems := [] }

def World.getU (w : World) (uid : ℕ) : PUpdater := w.updaters uid

def World.setU (w : World) (uid : ℕ) (u : PUpdater) : World :=
  { w with updaters := fun i => if i = uid then u else w.updaters i }

def World.getP (w : World) (pid : ℕ) : PParticle := w.particles pid

def World.setP (w : World) (pid : ℕ) (p : PParticle) : World :=
  { w with particles := fun i => if i = pid then p else w.particles i }

/-- The id of `DEFAULT_PARTICLE_MOTION` in every world: allocated first, at
module load. -/
def DEFAULT_PARTICLE_MOTION : ℕ := 0

/-- `BasicParticleUpdater.__call__` (lines 233-236):
`self.particle.position += self.velocity * dt` then
`self.velocity += self.accel * dt`. Attribute access on a `None`
back-reference raises `AttributeError` (uncaught anywhere in the module). -/
def BasicParticleUpdater.callW (w : World) (uid : ℕ) (dt : ℚ) :
    Except PyErr World :=
  let u := w.getU uid
  match u.particle with
  | none => .error .attributeError
  | some pid =>
    let p := w.getP pid
    let w1 := w.setP pid
      { p with gob := { p.gob with position := p.gob.position.add (u.velocity.smul dt) } }
    let u1 := w1.getU uid
    .ok (w1.setU uid { u1 with velocity := u1.velocity.add (u1.accel.smul dt) })

/-- `GameObject.update` as inherited by a `Particle` (lines 85-94): the
attached updater is always a `BasicParticleUpdater` heap instance; calling a
`None` updater raises `TypeError`, swallowed by `except TypeError: pass`. -/
def GameObject.updateW (w : World) (pid : ℕ) (dt : ℚ) : Except PyErr World :=
  match (w.getP pid).updater with
  | none => .ok w
  | some uid =>
    match BasicParticleUpdater.callW w uid dt with
    | .ok w1 => .ok w1
    | .error .typeError => .ok w
    | .error e => .error e

/-- `Particle.updater` setter (lines 270-275):
`self._updater = DEFAULT_PARTICLE_MOTION if u is None else u` then
`self._updater.particle = self` — the chosen updater's back-reference is
rebound to this particle unconditionally. -/
def Particle.setUpdaterW (w : World) (pid : ℕ) (u : Option ℕ) : World :=
  let uid := u.getD DEFAULT_PARTICLE_MOTION
  let w1 := w.setP pid { w.getP pid with updater := some uid }
  w1.setU uid { w1.getU uid with particle := some pid }

/-- `sprite.Sprite.kill()` as used on line 289: remove the particle from
every group (ParticleSystem) it belongs to. -/
def World.kill (w : World) (pid : ℕ) : World :=
  { w with systems := w.systems.map (fun g => g.filter (fun q => q != pid)) }

/-- `Particle.update` (lines 277-294): alive particles run the base update,
then `lifespan -= dt / base_fps`; if the result is `<= 0` the particle is
`kill()`ed and the lifespan set to exactly `0.0`. Dead particles (`== 0`)
return immediately; immortal particles (`< 0`) just run the base update.
(`base_fps = 0` would raise `ZeroDivisionError` in Python; the theorems
below assume a positive `base_fps`, as in every call site.) -/
def Particle.updateW (w : World) (pid : ℕ) (dt : ℚ) (base_fps : ℤ) :
    Except PyErr World :=
  if (w.getP pid).lifespan > 0 then
    match GameObject.updateW w pid dt with
    | .error e => .error e
    | .ok w1 =>
      let p1 := w1.getP pid
      let l1 := p1.lifespan - dt / (base_fps : ℚ)
      let w2 := w1.setP pid { p1 with lifespan := l1 }
      if l1 ≤ 0 then
        let w3 := w2.kill pid
        .ok (w3.setP pid { w3.getP pid with lifespan := 0 })
      else .ok w2
  else if (w.getP pid).lifespan = 0 then .ok w
  else GameObject.updateW w pid dt

/-- `Particle.draw` (lines 296-299): dead particles are skipped; otherwise
delegate to `GameObject.draw` (which forwards `area=None, special_flags=0`
to the renderer, line 99). -/
def Particle.drawW (rotS : ℤ → ℤ → ℚ → ℤ × ℤ) (w : World) (pid : ℕ)
    (surface : ℤ × ℤ) (area : Option PRect) (special_flags : ℤ) :
    Except PyErr (List Blit) :=
  if (w.getP pid).lifespan = 0 then .ok []
  else GameObject.draw rotS (w.getP pid).gob surface area special_flags

/-- `Particle.__init__` (lines 257-264, running `GameObject.__init__`
lines 36-50 with `self` a Particle, so `self.updater = updater` dispatches to
the `Particle.updater` setter): allocate the particle, set the GameObject
attributes, bind the updater, compute the hitbox through the renderer (a
`StackRenderer` raises here and no object is produced), then bind the updater
again and set the lifespan. -/
def Particle.mkW (rotS : ℤ → ℤ → ℚ → ℤ × ℤ) (w : World) (texture : ℕ)
    (position scale : Vec2) (rotation : ℚ) (renderer : Option Renderer)
    (updater : Option ℕ) (lifespan : ℚ) : Except PyErr (World × ℕ) :=
  let pid := w.npart
  let w0 : World := { w with npart := w.npart + 1 }
  let g0 := GameObject.mkPre texture position scale rotation renderer
  let w1 := w0.setP pid { w0.getP pid with gob := g0 }
  let w2 := Particle.setUpdaterW w1 pid updater
  match rendererHitboxE rotS (w2.getP pid).gob.renderer (w2.getP pid).gob with
  | .error e => .error e
  | .ok r =>
    let w3 := w2.setP pid { w2.getP pid with gob := { (w2.getP pid).gob with rect := r } }
    let w4 := Particle.setUpdaterW w3 pid updater
    .ok (w4.setP pid { w4.getP pid with lifespan := lifespan }, pid)

/-- A concrete instantiation of the abstract scaled-and-rotated-size
collaborator, used by concrete evaluations: rotation leaves the size
unchanged (exact for rotation 0). -/
def rotSizeId : ℤ → ℤ → ℚ → ℤ × ℤ := fun a b _ => (a, b)

/-- A concrete on-screen GameObject with the basic renderer. -/
def gOnScreen : GOState :=
  { image := 0, position := ⟨0, 0⟩, scale := ⟨10, 10⟩, rotation := 0,
    renderer := some .basic, rect := ⟨0, 0, 0, 0⟩ }

/-- A concrete GameObject far outside a 100×100 surface. -/
def gOffScreen : GOState :=
  { image := 0, position := ⟨1000, 1000⟩, scale := ⟨10, 10⟩, rotation := 0,
    renderer := some .basic, rect := ⟨0, 0, 0, 0⟩ }

/-- A concrete GameObject whose renderer is a StackRenderer. -/
def gStack : GOState :=
  { image := 0, position := ⟨0, 0⟩, scale := ⟨10, 10⟩, rotation := 0,
    renderer := some (.stack 1), rect := ⟨0, 0, 0, 0⟩ }

/-- A concrete heap: one particle (id 0, alive, lifespan 1) whose attached
updater (id 0) is bound back to it with velocity (0,0) and accel (1,0), and
one ParticleSystem containing the particle. -/
def demoWorld : World :=
  { updaters := fun _ => ⟨some 0, ⟨0, 0⟩, ⟨1, 0⟩⟩,
    nupd := 1,
    particles := fun _ => ⟨default, some 0, 1⟩,
    npart := 1,
    systems := [[0]] }

/-- The heap after `Particle(texture, lifespan=10)` (all strategy arguments
defaulted) has run once from module load. -/
def heap1 : World :=
  match Particle.mkW rotSizeId World.start 0 ⟨0, 0⟩ ⟨10, 10⟩ 0 none none 10 with
  | .ok (w, _) => w
  | .error _ => World.start

/-- The heap after a second `Particle(texture, lifespan=10)` with defaulted
strategy arguments. -/
def heap2 : World :=
  match Particle.mkW rotSizeId heap1 0 ⟨0, 0⟩ ⟨10, 10⟩ 0 none none 10 with
  | .ok (w, _) => w
  | .error _ => World.start

/-- The heap after a `Particle` construction with the basic renderer from
module load (used to evaluate the constructor-time hitbox). -/
def heapBasic : World :=
  match Particle.mkW rotSizeId World.start 0 ⟨0, 0⟩ ⟨10, 10⟩ 0 (some .basic) none 5 with
  | .ok (w, _) => w
  | .error _ => World.start

/-! ## Helper lemmas on the heap operations -/

@[simp] theorem World.getP_setP_self (w : World) (pid : ℕ) (p : PParticle) :
    (w.setP pid p).getP pid = p := by
  simp [World.getP, World.setP]

theorem World.getP_setP_ne (w : World) (i j : ℕ) (p : PParticle) (h : j ≠ i) :
    (w.setP i p).getP j = w.getP j := by
  simp [World.getP, World.setP, h]

@[simp] theorem World.getP_setU (w : World) (uid : ℕ) (u : PUpdater) (pid : ℕ) :
    (w.setU uid u).getP pid = w.getP pid := rfl

@[simp] theorem World.getU_setP (w : World) (pid : ℕ) (p : PParticle) (uid : ℕ) :
    (w.setP pid p).getU uid = w.getU uid := rfl

@[simp] theorem World.getU_setU_self (w : World) (uid : ℕ) (u : PUpdater) :
    (w.setU uid u).getU uid = u := by
  simp [World.getU, World.setU]

theorem World.getU_setU_ne (w : World) (i j : ℕ) (u : PUpdater) (h : j ≠ i) :
    (w.setU i u).getU j = w.getU j := by
  simp [World.getU, World.setU, h]

@[simp] theorem World.systems_setP (w : World) (pid : ℕ) (p : PParticle) :
    (w.setP pid p).systems = w.systems := rfl

@[simp] theorem World.systems_setU (w : World) (uid : ℕ) (u : PUpdater) :
    (w.setU uid u).systems = w.systems := rfl

@[simp] theorem World.getP_kill (w : World) (pid qid : ℕ) :
    (w.kill pid).getP qid = w.getP qid := rfl

@[simp] theorem World.npart_setP (w : World) (pid : ℕ) (p : PParticle) :
    (w.setP pid p).npart = w.npart := rfl

@[simp] theorem World.npart_setU (w : World) (uid : ℕ) (u : PUpdater) :
    (w.setU uid u).npart = w.npart := rfl

/-- After `kill`, the particle belongs to no system. -/
theorem World.kill_not_mem (w : World) (pid : ℕ) :
    ∀ g ∈ (w.kill pid).systems, pid ∉ g := by
  intro g hg
  simp only [World.kill, List.mem_map] at hg
  obtain ⟨g0, _, rfl⟩ := hg
  intro hmem
  rw [List.mem_filter] at hmem
  exact absurd hmem.2 (by simp)

/-! ## Helper lemmas on `pymod` -/

theorem pymod_eq_mul_fract (a m : ℚ) (hm : m ≠ 0) :
    pymod a m = m * Int.fract (a / m) := by
  unfold pymod Int.fract
  rw [mul_sub, mul_comm m (a / m), div_mul_cancel₀ a hm]

theorem pymod_nonneg (a m : ℚ) (hm : 0 < m) : 0 ≤ pymod a m := by
  rw [pymod_eq_mul_fract a m hm.ne']
  exact mul_nonneg hm.le (Int.fract_nonneg _)

theorem pymod_lt (a m : ℚ) (hm : 0 < m) : pymod a m < m := by
  rw [pymod_eq_mul_fract a m hm.ne']
  calc m * Int.fract (a / m) < m * 1 := mul_lt_mul_of_pos_left (Int.fract_lt_one _) hm
    _ = m := mul_one m

/-! ## Claim theorems -/

/-- C3: Setting the rotation of a GameObject, at construction or via the
rotation setter, stores `r mod 360`, which always lies in `[0, 360)`;
input `-10` stores `350` and input `370` stores `10`. -/
theorem rotation_normalized (g : GOState) (r : ℚ) (rotS : ℤ → ℤ → ℚ → ℤ × ℤ)
    (t : ℕ) (pos sc : Vec2) (rend : Option Renderer) :
    (GameObject.setRotation g r).rotation = pymod r 360 ∧
    0 ≤ (GameObject.setRotation g r).rotation ∧
    (GameObject.setRotation g r).rotation < 360 ∧
    (∀ g2, GameObject.mk' rotS t pos sc r rend = .ok g2 →
      g2.rotation = pymod r 360) ∧
    (GameObject.setRotation g (-10)).rotation = 350 ∧
    (GameObject.setRotation g 370).rotation = 10 := by
  refine ⟨rfl, pymod_nonneg r 360 (by norm_num), pymod_lt r 360 (by norm_num),
    ?_, ?_, ?_⟩
  · intro g2 h
    simp only [GameObject.mk'] at h
    split at h
    · exact absurd h (by simp)
    · simp only [Except.ok.injEq] at h
      subst h
      rfl
  · show pymod (-10) 360 = 350
    with_unfolding_all decide
  · show pymod 370 360 = 10
    with_unfolding_all decide

theorem rotation_normalized_witness :
    (GameObject.setRotation gOnScreen (-10)).rotation = 350 ∧
    ({ image := 7, position := ⟨1, 2⟩, scale := ⟨10, 10⟩, rotation := 10,
       renderer := some .basic, rect := ⟨-4, -3, 10, 10⟩ } : GOState).rotation =
      pymod 370 360 :=
  ⟨(rotation_normalized gOnScreen (-10) rotSizeId 0 ⟨0, 0⟩ ⟨0, 0⟩ none).2.2.2.2.1,
   (rotation_normalized gOnScreen 370 rotSizeId 7 ⟨1, 2⟩ ⟨10, 10⟩ none).2.2.2.1 _
     (by with_unfolding_all decide)⟩

/-- C5: `GameObject.update(dt)` is a silent no-op (state unchanged, no error)
when no updater is attached or when invoking the attached updater raises a
`TypeError`-style parameter mismatch; in every other case the attached
updater's outcome stands (success or a non-TypeError error propagates). -/
theorem update_typeerror_tolerance (g : GOState) (dt : ℚ)
    (f : ℚ → GOState → Except PyErr GOState) :
    GameObject.update none g dt = .ok g ∧
    (f dt g = .error .typeError → GameObject.update (some f) g dt = .ok g) ∧
    (∀ g2, f dt g = .ok g2 → GameObject.update (some f) g dt = .ok g2) ∧
    (∀ e, e ≠ PyErr.typeError → f dt g = .error e →
      GameObject.update (some f) g dt = .error e) := by
  refine ⟨rfl, ?_, ?_, ?_⟩
  · intro h
    simp [GameObject.update, h]
  · intro g2 h
    simp [GameObject.update, h]
  · intro e he h
    cases e with
    | typeError => exact absurd rfl he
    | attributeError => simp [GameObject.update, h]
    | notImplementedError => simp [GameObject.update, h]
    | other c => simp [GameObject.update, h]

theorem update_typeerror_tolerance_witness :
    GameObject.update none gOnScreen 1 = .ok gOnScreen ∧
    GameObject.update (some fun _ _ => .error .typeError) gOnScreen 1 =
      .ok gOnScreen ∧
    GameObject.update (some fun _ s => .ok (GameObject.setRotation s 370))
      gOnScreen 1 = .ok (GameObject.setRotation gOnScreen 370) ∧
    GameObject.update (some fun _ _ => .error .notImplementedError) gOnScreen 1 =
      .error .notImplementedError :=
  ⟨(update_typeerror_tolerance gOnScreen 1 (fun _ _ => .error .typeError)).1,
   (update_typeerror_tolerance gOnScreen 1 (fun _ _ => .error .typeError)).2.1 rfl,
   (update_typeerror_tolerance gOnScreen 1
      (fun _ s => .ok (GameObject.setRotation s 370))).2.2.1 _ rfl,
   (update_typeerror_tolerance gOnScreen 1
      (fun _ _ => .error .notImplementedError)).2.2.2 _ (by decide) rfl⟩

/-- C6: the StackRenderer's draw and hitbox always raise the
NotImplementedError and never silently succeed, and the failure propagates
through `GameObject.draw` and the hitbox dispatch to the caller. -/
theorem stack_renderer_raises (spread : ℤ) (g : GOState)
    (rotS : ℤ → ℤ → ℚ → ℤ × ℤ) (surface : ℤ × ℤ) (area : Option PRect)
    (flags : ℤ) (hr : g.renderer = some (.stack spread)) :
    StackRenderer.callFn spread g surface area flags =
      .error .notImplementedError ∧
    StackRenderer.hitboxFn spread g = .error .notImplementedError ∧
    GameObject.draw rotS g surface area flags = .error .notImplementedError ∧
    rendererHitboxE rotS g.renderer g = .error .notImplementedError := by
  refine ⟨rfl, rfl, ?_, ?_⟩
  · simp [GameObject.draw, rendererCallE, hr, StackRenderer.callFn]
  · simp [rendererHitboxE, hr, StackRenderer.hitboxFn]

theorem stack_renderer_raises_witness :
    GameObject.draw rotSizeId gStack (100, 100) none 0 =
      .error .notImplementedError ∧
    rendererHitboxE rotSizeId gStack.renderer gStack =
      .error .notImplementedError :=
  ⟨(stack_renderer_raises 1 gStack rotSizeId (100, 100) none 0 (by decide)).2.2.1,
   (stack_renderer_raises 1 gStack rotSizeId (100, 100) none 0 (by decide)).2.2.2⟩

/-- C7: at a concrete intersecting input, `GameObject.draw(surface, area,
special_flags)` does NOT forward its `area` and `special_flags` arguments:
line 99 passes the literals `area=None, special_flags=0` to the renderer, so
the blit receives `none`/`0` although `some ⟨1,2,3,4⟩`/`5` were passed, while
`BasicRenderer.__call__` itself does forward its own arguments unchanged. -/
theorem draw_discards_area_and_flags :
    GameObject.draw rotSizeId gOnScreen (100, 100) (some ⟨1, 2, 3, 4⟩) 5 =
      .ok [{ dest := (-5, -5), area := none, special_flags := 0 }] ∧
    BasicRenderer.callFn rotSizeId gOnScreen (100, 100) (some ⟨1, 2, 3, 4⟩) 5 =
      [{ dest := (-5, -5), area := some ⟨1, 2, 3, 4⟩, special_flags := 5 }] ∧
    (none : Option PRect) ≠ some ⟨1, 2, 3, 4⟩ ∧ (0 : ℤ) ≠ 5 := by
  with_unfolding_all decide

/-- C9: if the bounding rectangle of the scaled-and-rotated texture centered
at the entity's position does not collide with the surface's rectangle, the
basic renderer issues zero blit calls (the surface is untouched), both when
invoked directly and through `GameObject.draw`. -/
theorem offscreen_culling (rotS : ℤ → ℤ → ℚ → ℤ × ℤ) (g : GOState)
    (sw sh : ℤ) (area : Option PRect) (flags : ℤ)
    (hr : g.renderer = some .basic)
    (hc : colliderect ⟨0, 0, sw, sh⟩ (transformedRect rotS g) = false) :
    BasicRenderer.callFn rotS g (sw, sh) area flags = [] ∧
    GameObject.draw rotS g (sw, sh) area flags = .ok [] := by
  constructor
  · simp [BasicRenderer.callFn, hc]
  · simp [GameObject.draw, rendererCallE, hr, BasicRenderer.callFn, hc]

theorem offscreen_culling_witness :
    BasicRenderer.callFn rotSizeId gOffScreen (100, 100) none 0 = [] ∧
    GameObject.draw rotSizeId gOffScreen (100, 100) none 0 = .ok [] :=
  offscreen_culling rotSizeId gOffScreen 100 100 none 0 (by decide)
    (by with_unfolding_all decide)

/-- C4: the renderer attribute is never null: construction with
`renderer=None` or assigning `None` through the setter substitutes the
module-level shared default BasicRenderer, assigning a renderer stores it
as-is (never `None`), and the other mutating operations leave the renderer
untouched; the same holds for Particle construction. -/
theorem renderer_never_none (g : GOState) (r : Renderer)
    (rotS : ℤ → ℤ → ℚ → ℤ × ℤ) (t : ℕ) (pos sc p : Vec2) (rot : ℚ)
    (w : World) (u : Option ℕ) (ls : ℚ) :
    (GameObject.setRenderer g none).renderer = some DEFAULT_RENDERER ∧
    (GameObject.setRenderer g (some r)).renderer = some r ∧
    (∀ rend g2, GameObject.mk' rotS t pos sc rot rend = .ok g2 →
      g2.renderer = some (rend.getD DEFAULT_RENDERER)) ∧
    (GameObject.setPosition g p).renderer = g.renderer ∧
    (GameObject.setScale g p).renderer = g.renderer ∧
    (GameObject.setRotation g rot).renderer = g.renderer ∧
    (∀ rend w2 pid, Particle.mkW rotS w t pos sc rot rend u ls = .ok (w2, pid) →
      (w2.getP pid).gob.renderer = some (rend.getD DEFAULT_RENDERER)) := by
  refine ⟨rfl, rfl, ?_, rfl, rfl, rfl, ?_⟩
  · intro rend g2 h
    simp only [GameObject.mk'] at h
    split at h
    · exact absurd h (by simp)
    · simp only [Except.ok.injEq] at h
      subst h
      rfl
  · intro rend w2 pid h
    simp only [Particle.mkW] at h
    split at h
    · exact absurd h (by simp)
    · simp only [Except.ok.injEq, Prod.mk.injEq] at h
      obtain ⟨hw, hp⟩ := h
      subst hw
      subst hp
      simp [Particle.setUpdaterW, GameObject.mkPre]

theorem renderer_never_none_witness :
    (GameObject.setRenderer gOnScreen none).renderer = some DEFAULT_RENDERER ∧
    ({ image := 7, position := ⟨1, 2⟩, scale := ⟨10, 10⟩, rotation := 10,
       renderer := some .basic, rect := ⟨-4, -3, 10, 10⟩ } : GOState).renderer =
      some ((none : Option Renderer).getD DEFAULT_RENDERER) ∧
    (heap1.getP 0).gob.renderer =
      some ((none : Option Renderer).getD DEFAULT_RENDERER) :=
  ⟨(renderer_never_none gOnScreen .basic rotSizeId 0 ⟨0, 0⟩ ⟨0, 0⟩ ⟨0, 0⟩ 0
      World.start none 0).1,
   (renderer_never_none gOnScreen .basic rotSizeId 7 ⟨1, 2⟩ ⟨10, 10⟩ ⟨0, 0⟩ 370
      World.start none 0).2.2.1 none _ (by with_unfolding_all decide),
   (renderer_never_none gOnScreen .basic rotSizeId 0 ⟨0, 0⟩ ⟨10, 10⟩ ⟨0, 0⟩ 0
      World.start none 10).2.2.2.2.2.2 none heap1 0 (by with_unfolding_all rfl)⟩

/-- C10: every GameObject/Particle construction immediately invokes the
assigned renderer's hitbox operation to initialize the stored hitbox
rectangle, so constructing with a StackRenderer raises the
NotImplementedError from inside the constructor and no object is produced. -/
theorem ctor_invokes_hitbox (rotS : ℤ → ℤ → ℚ → ℤ × ℤ) (t : ℕ) (pos sc : Vec2)
    (rot : ℚ) (spread : ℤ) (w : World) (u : Option ℕ) (ls : ℚ) :
    GameObject.mk' rotS t pos sc rot (some .basic) =
      .ok { GameObject.mkPre t pos sc rot (some .basic) with
            rect := BasicRenderer.hitboxFn rotS
              (GameObject.mkPre t pos sc rot (some .basic)) } ∧
    GameObject.mk' rotS t pos sc rot (some (.stack spread)) =
      .error .notImplementedError ∧
    Particle.mkW rotS w t pos sc rot (some (.stack spread)) u ls =
      .error .notImplementedError ∧
    (∀ w2 pid, Particle.mkW rotS w t pos sc rot (some .basic) u ls =
        .ok (w2, pid) →
      (w2.getP pid).gob.rect = BasicRenderer.hitboxFn rotS ((w2.getP pid).gob)) := by
  refine ⟨rfl, rfl, ?_, ?_⟩
  · simp [Particle.mkW, Particle.setUpdaterW, GameObject.mkPre, rendererHitboxE,
      StackRenderer.hitboxFn]
  · intro w2 pid h
    simp only [Particle.mkW] at h
    split at h
    · exact absurd h (by simp)
    · next heq =>
      simp only [Except.ok.injEq, Prod.mk.injEq] at h
      obtain ⟨hw, hp⟩ := h
      subst hw
      subst hp
      simp only [Particle.setUpdaterW, World.getP_setP_self, World.getP_setU] at heq ⊢
      simp only [GameObject.mkPre, rendererHitboxE, Option.getD] at heq ⊢
      simp only [Except.ok.injEq] at heq
      simp [← heq, BasicRenderer.hitboxFn, transformedRect, transformedSize]

theorem ctor_invokes_hitbox_witness :
    (heapBasic.getP 0).gob.rect =
      BasicRenderer.hitboxFn rotSizeId ((heapBasic.getP 0).gob) :=
  (ctor_invokes_hitbox rotSizeId 0 ⟨0, 0⟩ ⟨10, 10⟩ 0 1 World.start none 5).2.2.2
    heapBasic 0 (by with_unfolding_all rfl)

/-- One successful `BasicParticleUpdater.__call__`: the bound particle's
position integrates the OLD velocity, then the updater's velocity integrates
the acceleration; nothing else in the heap changes. -/
theorem callW_spec (w : World) (uid q : ℕ) (dt : ℚ)
    (hq : (w.getU uid).particle = some q) :
    ∃ w1, BasicParticleUpdater.callW w uid dt = .ok w1 ∧
      (w1.getP q).gob.position =
        (w.getP q).gob.position.add ((w.getU uid).velocity.smul dt) ∧
      (w1.getU uid).velocity =
        (w.getU uid).velocity.add ((w.getU uid).accel.smul dt) ∧
      (∀ pid, (w1.getP pid).lifespan = (w.getP pid).lifespan) ∧
      (∀ pid, (w1.getP pid).updater = (w.getP pid).updater) ∧
      (∀ pid, (w1.getP pid).gob.renderer = (w.getP pid).gob.renderer) ∧
      w1.systems = w.systems ∧
      (w1.getU uid).accel = (w.getU uid).accel ∧
      (w1.getU uid).particle = (w.getU uid).particle := by
  refine ⟨(w.setP q { w.getP q with gob := { (w.getP q).gob with
      position := (w.getP q).gob.position.add ((w.getU uid).velocity.smul dt) } }).setU uid
      { w.getU uid with
        velocity := (w.getU uid).velocity.add ((w.getU uid).accel.smul dt) },
    ?_, ?_, ?_, ?_, ?_, ?_, ?_, ?_, ?_⟩
  · simp [BasicParticleUpdater.callW, hq]
  · simp
  · simp
  · intro pid
    by_cases hpq : pid = q
    · subst hpq
      simp
    · simp [World.getP_setP_ne _ _ _ _ hpq]
  · intro pid
    by_cases hpq : pid = q
    · subst hpq
      simp
    · simp [World.getP_setP_ne _ _ _ _ hpq]
  · intro pid
    by_cases hpq : pid = q
    · subst hpq
      simp
    · simp [World.getP_setP_ne _ _ _ _ hpq]
  · simp
  · simp
  · simp [hq]

/-- One `GameObject.update` on a particle whose attached updater is bound:
it succeeds and touches no lifespan, no updater attachment, no system. -/
theorem updateW_spec (w : World) (pid uid q : ℕ) (dt : ℚ)
    (hu : (w.getP pid).updater = some uid)
    (hq : (w.getU uid).particle = some q) :
    ∃ w1, GameObject.updateW w pid dt = .ok w1 ∧
      (∀ i, (w1.getP i).lifespan = (w.getP i).lifespan) ∧
      (∀ i, (w1.getP i).updater = (w.getP i).updater) ∧
      w1.systems = w.systems := by
  obtain ⟨w1, hc, _, _, hl, hup, _, hs, _, _⟩ := callW_spec w uid q dt hq
  refine ⟨w1, ?_, hl, hup, hs⟩
  simp only [GameObject.updateW, hu, hc]

/-- C2: one `apply(dt)` of the kinematic updater first performs
`position += velocity * dt` and then `velocity += accel * dt`: the bound
particle's new position uses the pre-call velocity, so the acceleration
affects the velocity this step but the position only on the next step; in
particular with `velocity=(0,0)` and `accel=(1,0)` and `dt=1` the position is
unchanged and the velocity becomes `(1,0)`. -/
theorem kinematic_apply_order (w : World) (uid pid : ℕ) (dt : ℚ)
    (hq : (w.getU uid).particle = some pid) :
    ∃ w1, BasicParticleUpdater.callW w uid dt = .ok w1 ∧
      (w1.getP pid).gob.position =
        (w.getP pid).gob.position.add ((w.getU uid).velocity.smul dt) ∧
      (w1.getU uid).velocity =
        (w.getU uid).velocity.add ((w.getU uid).accel.smul dt) ∧
      ((w.getU uid).velocity = ⟨0, 0⟩ →
        (w1.getP pid).gob.position = (w.getP pid).gob.position) ∧
      ((w.getU uid).velocity = ⟨0, 0⟩ → (w.getU uid).accel = ⟨1, 0⟩ → dt = 1 →
        (w1.getU uid).velocity = ⟨1, 0⟩) := by
  obtain ⟨w1, hc, hpos, hvel, _, _, _, _, _, _⟩ := callW_spec w uid pid dt hq
  refine ⟨w1, hc, hpos, hvel, ?_, ?_⟩
  · intro hv0
    rw [hpos, hv0]
    cases hp : (w.getP pid).gob.position with
    | mk a b => simp [Vec2.add, Vec2.smul]
  · intro hv0 ha hdt
    rw [hvel, hv0, ha, hdt]
    simp [Vec2.add, Vec2.smul]

theorem kinematic_apply_order_witness :
    (demoWorld.getU 0).particle = some 0 ∧
    ∃ w1, BasicParticleUpdater.callW demoWorld 0 1 = .ok w1 ∧
      (w1.getP 0).gob.position =
        (demoWorld.getP 0).gob.position.add ((demoWorld.getU 0).velocity.smul 1) ∧
      (w1.getU 0).velocity =
        (demoWorld.getU 0).velocity.add ((demoWorld.getU 0).accel.smul 1) ∧
      ((demoWorld.getU 0).velocity = ⟨0, 0⟩ →
        (w1.getP 0).gob.position = (demoWorld.getP 0).gob.position) ∧
      ((demoWorld.getU 0).velocity = ⟨0, 0⟩ →
          (demoWorld.getU 0).accel = ⟨1, 0⟩ → (1 : ℚ) = 1 →
        (w1.getU 0).velocity = ⟨1, 0⟩) :=
  ⟨by with_unfolding_all decide,
   kinematic_apply_order demoWorld 0 0 1 (by with_unfolding_all decide)⟩

/-- C1: the Particle lifecycle state machine. Alive (`lifespan > 0`): update
runs the base update, then decrements the lifespan by `dt / base_fps`; if the
result is `≤ 0` the lifespan is clamped to exactly `0` and the particle is
removed from every ParticleSystem it belongs to, otherwise the decremented
value is stored and no membership changes. Dead (`lifespan = 0`): update and
draw are no-ops (the heap is returned unchanged, so no sequence of further
calls can make the lifespan nonzero again). Immortal (`lifespan < 0`): update
delegates to the base `GameObject.update` and the lifespan never changes. -/
theorem particle_update_lifecycle (rotS : ℤ → ℤ → ℚ → ℤ × ℤ) (w : World)
    (pid uid q : ℕ) (dt : ℚ) (base_fps : ℤ) (surface : ℤ × ℤ)
    (area : Option PRect) (flags : ℤ)
    (hfps : 0 < base_fps)
    (hu : (w.getP pid).updater = some uid)
    (hq : (w.getU uid).particle = some q) :
    ((w.getP pid).lifespan > 0 →
      ∃ w2, Particle.updateW w pid dt base_fps = .ok w2 ∧
        ((w.getP pid).lifespan - dt / (base_fps : ℚ) ≤ 0 →
          (w2.getP pid).lifespan = 0 ∧ ∀ g ∈ w2.systems, pid ∉ g) ∧
        (0 < (w.getP pid).lifespan - dt / (base_fps : ℚ) →
          (w2.getP pid).lifespan = (w.getP pid).lifespan - dt / (base_fps : ℚ) ∧
          w2.systems = w.systems)) ∧
    ((w.getP pid).lifespan = 0 →
      Particle.updateW w pid dt base_fps = .ok w ∧
      Particle.drawW rotS w pid surface area flags = .ok []) ∧
    ((w.getP pid).lifespan < 0 →
      Particle.updateW w pid dt base_fps = GameObject.updateW w pid dt ∧
      ∃ w2, GameObject.updateW w pid dt = .ok w2 ∧
        (w2.getP pid).lifespan = (w.getP pid).lifespan ∧
        w2.systems = w.systems) := by
  obtain ⟨w1, hW, hl, hup, hs⟩ := updateW_spec w pid uid q dt hu hq
  refine ⟨?_, ?_, ?_⟩
  · intro hal
    have h0 : Particle.updateW w pid dt base_fps =
        (if (w1.getP pid).lifespan - dt / (base_fps : ℚ) ≤ 0 then
          .ok (((w1.setP pid { w1.getP pid with
              lifespan := (w1.getP pid).lifespan - dt / (base_fps : ℚ) }).kill pid).setP pid
            { ((w1.setP pid { w1.getP pid with
                lifespan := (w1.getP pid).lifespan - dt / (base_fps : ℚ) }).kill pid).getP pid with
              lifespan := 0 })
        else
          .ok (w1.setP pid { w1.getP pid with
            lifespan := (w1.getP pid).lifespan - dt / (base_fps : ℚ) })) := by
      unfold Particle.updateW
      rw [if_pos hal, hW]
    rw [hl pid] at h0
    by_cases hle : (w.getP pid).lifespan - dt / (base_fps : ℚ) ≤ 0
    · rw [if_pos hle] at h0
      refine ⟨_, h0, ?_, ?_⟩
      · intro _
        constructor
        · simp
        · intro g hg
          simp only [World.systems_setP] at hg
          exact World.kill_not_mem _ pid g hg
      · intro hgt
        exact absurd hle (not_le.mpr hgt)
    · rw [if_neg hle] at h0
      refine ⟨_, h0, ?_, ?_⟩
      · intro hc
        exact absurd hc hle
      · intro _
        constructor
        · simp [hl pid]
        · simp [hs]
  · intro hd
    constructor
    · unfold Particle.updateW
      rw [if_neg (by rw [hd]; exact lt_irrefl 0), if_pos hd]
    · unfold Particle.drawW
      rw [if_pos hd]
  · intro him
    have h1 : Particle.updateW w pid dt base_fps = GameObject.updateW w pid dt := by
      unfold Particle.updateW
      rw [if_neg (not_lt.mpr him.le), if_neg him.ne]
    exact ⟨h1, w1, hW, hl pid, hs⟩

theorem particle_update_lifecycle_witness :
    (0 : ℤ) < 60 ∧
    (demoWorld.getP 0).updater = some 0 ∧
    (demoWorld.getU 0).particle = some 0 ∧
    (((demoWorld.getP 0).lifespan > 0 →
      ∃ w2, Particle.updateW demoWorld 0 60 60 = .ok w2 ∧
        ((demoWorld.getP 0).lifespan - 60 / ((60 : ℤ) : ℚ) ≤ 0 →
          (w2.getP 0).lifespan = 0 ∧ ∀ g ∈ w2.systems, 0 ∉ g) ∧
        (0 < (demoWorld.getP 0).lifespan - 60 / ((60 : ℤ) : ℚ) →
          (w2.getP 0).lifespan = (demoWorld.getP 0).lifespan - 60 / ((60 : ℤ) : ℚ) ∧
          w2.systems = demoWorld.systems)) ∧
    ((demoWorld.getP 0).lifespan = 0 →
      Particle.updateW demoWorld 0 60 60 = .ok demoWorld ∧
      Particle.drawW rotSizeId demoWorld 0 (100, 100) none 0 = .ok []) ∧
    ((demoWorld.getP 0).lifespan < 0 →
      Particle.updateW demoWorld 0 60 60 = GameObject.updateW demoWorld 0 60 ∧
      ∃ w2, GameObject.updateW demoWorld 0 60 = .ok w2 ∧
        (w2.getP 0).lifespan = (demoWorld.getP 0).lifespan ∧
        w2.systems = demoWorld.systems)) :=
  ⟨by decide, by with_unfolding_all decide, by with_unfolding_all decide,
   particle_update_lifecycle rotSizeId demoWorld 0 0 0 60 60 (100, 100) none 0
     (by decide) (by with_unfolding_all decide) (by with_unfolding_all decide)⟩

/-- C8, counterexample: two Particles constructed with `updater=None` (from
the module-load heap) do NOT each receive a fresh updater instance bound to
themselves: both end up attached to the one shared module-level
`DEFAULT_PARTICLE_MOTION` instance, and after the second construction that
instance's back-reference points at particle 1, so particle 0's attached
updater is no longer bound to particle 0. -/
theorem default_updater_not_fresh :
    (heap1.getP 0).updater = some DEFAULT_PARTICLE_MOTION ∧
    (heap1.getU DEFAULT_PARTICLE_MOTION).particle = some 0 ∧
    (heap2.getP 0).updater = (heap2.getP 1).updater ∧
    (heap2.getU DEFAULT_PARTICLE_MOTION).particle = some 1 ∧
    ¬ ((heap2.getU DEFAULT_PARTICLE_MOTION).particle = some 0) := by
  with_unfolding_all decide

/-- C8, amended: a Particle constructed with `updater=None` receives the
shared module-level `DEFAULT_PARTICLE_MOTION` updater (not a fresh one),
rebound to this particle; every assignment of an updater to a Particle stores
a non-null updater and rebinds that updater's back-reference to this
particle, even if it was previously bound to a different particle (last
assignment wins). -/
theorem updater_rebinding_last_wins (rotS : ℤ → ℤ → ℚ → ℤ × ℤ) (w : World)
    (t : ℕ) (pos sc : Vec2) (rot ls : ℚ) (u : Option ℕ) (pid uid : ℕ) :
    (∃ w2, Particle.mkW rotS w t pos sc rot none none ls = .ok (w2, w.npart) ∧
      (w2.getP w.npart).updater = some DEFAULT_PARTICLE_MOTION ∧
      (w2.getU DEFAULT_PARTICLE_MOTION).particle = some w.npart) ∧
    ((Particle.setUpdaterW w pid u).getP pid).updater =
      some (u.getD DEFAULT_PARTICLE_MOTION) ∧
    ((Particle.setUpdaterW w pid (some uid)).getU uid).particle = some pid := by
  refine ⟨?_, ?_, ?_⟩
  · simp only [Particle.mkW]
    split
    · next e heq =>
      simp [Particle.setUpdaterW, GameObject.mkPre, DEFAULT_RENDERER,
        rendererHitboxE] at heq
    · next r heq =>
      refine ⟨_, rfl, ?_, ?_⟩
      · simp [Particle.setUpdaterW]
      · simp [Particle.setUpdaterW]
  · simp [Particle.setUpdaterW]
  · simp [Particle.setUpdaterW]
